import Mathlib

/-!
# Verification of the fitness-tracker calculation module (`homework.py`)

Shallow embedding of the module: Python `float` arithmetic is modelled by
exact rational arithmetic (`ℚ`); runtime faults (`ZeroDivisionError`,
`NotImplementedError`) are modelled by `Except Fault`; the dispatcher's
failure modes (`KeyError` for an unknown code, the `TypeError` raised by a
positional-construction arity mismatch) are modelled by `Except DispatchError`.
Python's float floor division `x // y` computes `⌊x / y⌋` (and raises on
`y == 0`), which is modelled by `Int.floor` on rationals behind a zero guard.
-/

deriving instance DecidableEq for Except

/-- Runtime faults of the calculation model: `ZeroDivisionError` and
`NotImplementedError`. -/
inductive Fault where
  | divisionByZero
  | notImplemented
  deriving DecidableEq, Repr

/-- `InfoMessage` dataclass: the computed summary of one workout
(`training_type`, `duration`, `distance`, `speed`, `calories`). -/
structure InfoMessage where
  training_type : String
  duration : ℚ
  distance : ℚ
  speed : ℚ
  calories : ℚ
  deriving DecidableEq, Repr

/-- The class hierarchy rooted at `Training`, as a closed sum: the base class
itself (instantiable in Python) and its three concrete subclasses `Running`,
`SportsWalking`, `Swimming` with their extra constructor fields. -/
inductive Training where
  | base (action duration weight : ℚ)
  | running (action duration weight : ℚ)
  | sportsWalking (action duration weight height : ℚ)
  | swimming (action duration weight length_pool count_pool : ℚ)
  deriving DecidableEq, Repr

namespace Training

/-- `self.action`. -/
def action : Training → ℚ
  | .base a _ _ => a
  | .running a _ _ => a
  | .sportsWalking a _ _ _ => a
  | .swimming a _ _ _ _ => a

/-- `self.duration`. -/
def duration : Training → ℚ
  | .base _ d _ => d
  | .running _ d _ => d
  | .sportsWalking _ d _ _ => d
  | .swimming _ d _ _ _ => d

/-- `self.weight`. -/
def weight : Training → ℚ
  | .base _ _ w => w
  | .running _ _ w => w
  | .sportsWalking _ _ w _ => w
  | .swimming _ _ w _ _ => w

/-- Class attribute `LEN_STEP`: `0.65` on `Training` (inherited by `Running`
and `SportsWalking`), overridden to `1.38` on `Swimming`. -/
def LEN_STEP : Training → ℚ
  | .swimming _ _ _ _ _ => 1.38
  | _ => 0.65

/-- Class attribute `M_IN_KM = 1000`. -/
def M_IN_KM : ℚ := 1000

/-- `type(self).__name__`. -/
def typeName : Training → String
  | .base _ _ _ => "Training"
  | .running _ _ _ => "Running"
  | .sportsWalking _ _ _ _ => "SportsWalking"
  | .swimming _ _ _ _ _ => "Swimming"

/-- `Training.get_distance`: `self.action * self.LEN_STEP / self.M_IN_KM`.
The divisor is the constant `1000`, so no fault can arise. -/
def get_distance (t : Training) : ℚ :=
  t.action * t.LEN_STEP / M_IN_KM

/-- `get_mean_speed`: on the base class (inherited by `Running` and
`SportsWalking`) it is `self.get_distance() / self.duration`; `Swimming`
overrides it with `self.length_pool * self.count_pool / self.M_IN_KM /
self.duration`. Division by a zero `duration` raises `ZeroDivisionError`. -/
def get_mean_speed (t : Training) : Except Fault ℚ :=
  match t with
  | .swimming _ d _ lp cp =>
      if d = 0 then .error .divisionByZero
      else .ok (lp * cp / M_IN_KM / d)
  | t =>
      if t.duration = 0 then .error .divisionByZero
      else .ok (t.get_distance / t.duration)

/-- Python float floor division `x // y` for `y ≠ 0`: the floor of the exact
quotient, as a rational. -/
def floorDiv (x y : ℚ) : ℚ :=
  (⌊x / y⌋ : ℤ)

/-- `get_spent_calories`: `NotImplementedError` on the base class, and the
three variant formulas (`Running.get_spent_calories`,
`SportsWalking.get_spent_calories`, `Swimming.get_spent_calories`). The
walking formula floor-divides by `self.height`, raising `ZeroDivisionError`
when the height is zero; the mean speed is computed first, so a zero
duration faults before the height is consulted. -/
def get_spent_calories (t : Training) : Except Fault ℚ :=
  match t with
  | .base _ _ _ => .error .notImplemented
  | .running a d w => do
      let v ← get_mean_speed (.running a d w)
      pure ((18 * v - 20) * w / M_IN_KM * d * 60)
  | .sportsWalking a d w h => do
      let v ← get_mean_speed (.sportsWalking a d w h)
      if h = 0 then Except.error .divisionByZero
      else pure ((0.035 * w + floorDiv (v ^ 2) h * 0.029 * w) * d * 60)
  | .swimming a d w lp cp => do
      let v ← get_mean_speed (.swimming a d w lp cp)
      pure ((v + 1.1) * 2 * w)

/-- `Training.show_training_info`: builds the `InfoMessage` from the type
name, duration, distance, mean speed and calories (Python evaluates the
constructor arguments left to right, so a speed fault surfaces before a
calorie fault). -/
def show_training_info (t : Training) : Except Fault InfoMessage := do
  let speed ← t.get_mean_speed
  let cal ← t.get_spent_calories
  pure ⟨t.typeName, t.duration, t.get_distance, speed, cal⟩

end Training

/-- The character for a decimal digit `d < 10`. -/
def digitChar (d : ℕ) : Char := Char.ofNat (48 + d)

/-- The three zero-padded fractional digits of `k` (used with `k < 1000`). -/
def fracDigits3 (k : ℕ) : List Char :=
  [digitChar (k / 100 % 10), digitChar (k / 10 % 10), digitChar (k % 10)]

/-- Round to the nearest integer, ties to even: the rounding Python's fixed
precision float formatting applies to the scaled value. -/
def roundHalfEven (q : ℚ) : ℤ :=
  if q - ⌊q⌋ < 1 / 2 then ⌊q⌋
  else if 1 / 2 < q - ⌊q⌋ then ⌊q⌋ + 1
  else if ⌊q⌋ % 2 = 0 then ⌊q⌋ else ⌊q⌋ + 1

/-- Python's `format(q, ".3f")` in the rational model: fixed-point, exactly
three digits after the decimal point, never scientific notation. -/
def formatFixed3 (q : ℚ) : String :=
  let n : ℤ := roundHalfEven (q * 1000)
  (if n < 0 then "-" else "") ++ toString (n.natAbs / 1000) ++ "."
    ++ String.mk (fracDigits3 (n.natAbs % 1000))

/-- `InfoMessage.get_message`: `self.MESSAGE.format(**asdict(self))` with the
fixed template `'Тип тренировки: ...; Длительность: ... ч.; Дистанция: ...
км; Ср. скорость: ... км/ч; Потрачено ккал: ....'`, every numeric field
formatted with `:.3f`. -/
def InfoMessage.get_message (m : InfoMessage) : String :=
  "Тип тренировки: " ++ m.training_type
    ++ "; Длительность: " ++ formatFixed3 m.duration
    ++ " ч.; Дистанция: " ++ formatFixed3 m.distance
    ++ " км; Ср. скорость: " ++ formatFixed3 m.speed
    ++ " км/ч; Потрачено ккал: " ++ formatFixed3 m.calories ++ "."

/-- Dispatcher failures: the `KeyError` raised for an unrecognized workout
code (carrying the code), and the `TypeError` that positional construction
raises when the payload length does not match the constructor's arity. -/
inductive DispatchError where
  | unknownWorkout (code : String)
  | arityMismatch
  deriving DecidableEq, Repr

/-- `read_package`: maps `"SWM"`/`"RUN"`/`"WLK"` to the corresponding
constructor applied positionally to the payload; any other code raises a
`KeyError` carrying the code, and a payload of the wrong length makes the
positional construction fail. -/
def read_package (workout_type : String) (data : List ℚ) :
    Except DispatchError Training :=
  if workout_type = "SWM" then
    match data with
    | [a, d, w, lp, cp] => .ok (.swimming a d w lp cp)
    | _ => .error .arityMismatch
  else if workout_type = "RUN" then
    match data with
    | [a, d, w] => .ok (.running a d w)
    | _ => .error .arityMismatch
  else if workout_type = "WLK" then
    match data with
    | [a, d, w, h] => .ok (.sportsWalking a d w h)
    | _ => .error .arityMismatch
  else .error (.unknownWorkout workout_type)

/-- Helper: the character of a digit `d < 10` satisfies `Char.isDigit`. -/
theorem digitChar_isDigit (d : ℕ) (hd : d < 10) : (digitChar d).isDigit = true := by
  interval_cases d <;> decide

/-- Helper: every `formatFixed3` output ends in a decimal point followed by
exactly three digit characters. -/
theorem formatFixed3_shape (q : ℚ) :
    ∃ l d1 d2 d3, (formatFixed3 q).data = l ++ ['.', d1, d2, d3] ∧
      d1.isDigit = true ∧ d2.isDigit = true ∧ d3.isDigit = true := by
  refine ⟨((if roundHalfEven (q * 1000) < 0 then "-" else "")
      ++ toString ((roundHalfEven (q * 1000)).natAbs / 1000)).data,
    digitChar ((roundHalfEven (q * 1000)).natAbs % 1000 / 100 % 10),
    digitChar ((roundHalfEven (q * 1000)).natAbs % 1000 / 10 % 10),
    digitChar ((roundHalfEven (q * 1000)).natAbs % 1000 % 10),
    ?_, digitChar_isDigit _ (Nat.mod_lt _ (by norm_num)),
    digitChar_isDigit _ (Nat.mod_lt _ (by norm_num)),
    digitChar_isDigit _ (Nat.mod_lt _ (by norm_num))⟩
  simp [formatFixed3, fracDigits3, String.data_append]

/-- Helper: the dispatcher never returns an instance of the base class. -/
theorem read_package_ne_base (code : String) (data : List ℚ) (a d w : ℚ) :
    read_package code data ≠ .ok (.base a d w) := by
  unfold read_package
  split_ifs <;>
    rcases data with _ | ⟨x1, _ | ⟨x2, _ | ⟨x3, _ | ⟨x4, _ | ⟨x5, _ | ⟨x6, rest⟩⟩⟩⟩⟩⟩ <;>
      simp

/-- C1 (counterexample): at `action=15000, duration=1, weight=75` the Running
summary's calories equal `699.75`, not `≈ 648.75` as the claim evaluates the
formula — the two differ by `51`. -/
theorem running_sample_calories_ne_claimed :
    Training.show_training_info (.running 15000 1 75) =
      .ok ⟨"Running", 1, 9.75, 9.75, 699.75⟩ ∧
    (699.75 : ℚ) ≠ 648.75 ∧ |(699.75 : ℚ) - 648.75| = 51 := by
  refine ⟨?_, by norm_num, by norm_num⟩
  simp only [Training.show_training_info, Training.get_mean_speed,
    Training.get_spent_calories, Training.get_distance, Training.action,
    Training.LEN_STEP, Training.duration, Training.weight, Training.M_IN_KM,
    Training.typeName, bind, Except.bind, pure, Except.pure]
  norm_num

/-- C1 (amended): a Running record's calories follow the formula
`(18 * meanSpeed - 20) * weight / 1000 * duration * 60`, and the sample
record `action=15000, duration=1, weight=75` yields the summary
`("Running", 1, 9.75, 9.75, 699.75)` — the formula's exact value is
`699.75`, not `648.75`. -/
theorem running_formula_and_sample :
    (∀ a d w v, Training.get_mean_speed (.running a d w) = .ok v →
      Training.get_spent_calories (.running a d w) =
        .ok ((18 * v - 20) * w / 1000 * d * 60)) ∧
    Training.show_training_info (.running 15000 1 75) =
      .ok ⟨"Running", 1, 9.75, 9.75, 699.75⟩ := by
  constructor
  · intro a d w v hv
    simp only [Training.get_spent_calories, hv, bind, Except.bind, pure,
      Except.pure, Training.M_IN_KM]
  · simp only [Training.show_training_info, Training.get_mean_speed,
      Training.get_spent_calories, Training.get_distance, Training.action,
      Training.LEN_STEP, Training.duration, Training.weight, Training.M_IN_KM,
      Training.typeName, bind, Except.bind, pure, Except.pure]
    norm_num

/-- C1 witness: the Running calorie formula instantiated at the sample
record. -/
theorem running_formula_and_sample_witness :
    Training.get_spent_calories (.running 15000 1 75) =
      .ok ((18 * (9.75 : ℚ) - 20) * 75 / 1000 * 1 * 60) :=
  running_formula_and_sample.1 15000 1 75 9.75 (by
    simp only [Training.get_mean_speed, Training.get_distance, Training.action,
      Training.LEN_STEP, Training.duration, Training.M_IN_KM]
    norm_num)

/-- C2: for a SportsWalking record with nonzero height whose mean speed is
defined, the calories are
`(0.035 * weight + floorDiv (speed ^ 2) height * 0.029 * weight) * duration * 60`
with floor division toward negative infinity; at
`action=9000, duration=1, weight=75, height=180` the summary is
`("SportsWalking", 1, 5.85, 5.85, 157.5)` and the floor term is `0`. -/
theorem sportsWalking_calories_formula :
    (∀ a d w h v, h ≠ 0 →
      Training.get_mean_speed (.sportsWalking a d w h) = .ok v →
      Training.get_spent_calories (.sportsWalking a d w h) =
        .ok ((0.035 * w + Training.floorDiv (v ^ 2) h * 0.029 * w) * d * 60)) ∧
    Training.show_training_info (.sportsWalking 9000 1 75 180) =
      .ok ⟨"SportsWalking", 1, 5.85, 5.85, 157.5⟩ ∧
    Training.floorDiv ((5.85 : ℚ) ^ 2) 180 = 0 ∧
    (∀ x y : ℚ, Training.floorDiv x y = (⌊x / y⌋ : ℤ)) := by
  refine ⟨?_, ?_, ?_, fun x y => rfl⟩
  · intro a d w h v hh hv
    simp only [Training.get_spent_calories, hv, bind, Except.bind, pure,
      Except.pure, if_neg hh]
  · simp only [Training.show_training_info, Training.get_mean_speed,
      Training.get_spent_calories, Training.get_distance, Training.action,
      Training.LEN_STEP, Training.duration, Training.weight, Training.M_IN_KM,
      Training.typeName, Training.floorDiv, bind, Except.bind, pure, Except.pure]
    norm_num
  · simp only [Training.floorDiv]
    norm_num

/-- C2 witness: the SportsWalking calorie formula instantiated at the sample
record. -/
theorem sportsWalking_calories_formula_witness :
    Training.get_spent_calories (.sportsWalking 9000 1 75 180) =
      .ok ((0.035 * 75 + Training.floorDiv ((5.85 : ℚ) ^ 2) 180 * 0.029 * 75)
        * 1 * 60) :=
  sportsWalking_calories_formula.1 9000 1 75 180 5.85 (by norm_num) (by
    simp only [Training.get_mean_speed, Training.get_distance, Training.action,
      Training.LEN_STEP, Training.duration, Training.M_IN_KM]
    norm_num)

/-- C3: a Swimming record with nonzero duration has mean speed
`length_pool * count_pool / 1000 / duration` (independent of the action
count) and calories `(speed + 1.1) * 2 * weight`; at
`action=720, duration=1, weight=80, length_pool=25, count_pool=40` the
speed is `1` and the calories are `336`. -/
theorem swimming_speed_calories_formula :
    (∀ a d w lp cp, d ≠ 0 →
      Training.get_mean_speed (.swimming a d w lp cp) =
        .ok (lp * cp / 1000 / d) ∧
      Training.get_spent_calories (.swimming a d w lp cp) =
        .ok ((lp * cp / 1000 / d + 1.1) * 2 * w)) ∧
    Training.show_training_info (.swimming 720 1 80 25 40) =
      .ok ⟨"Swimming", 1, 0.9936, 1, 336⟩ := by
  constructor
  · intro a d w lp cp hd
    constructor
    · simp only [Training.get_mean_speed, Training.M_IN_KM, if_neg hd]
    · simp only [Training.get_spent_calories, Training.get_mean_speed,
        Training.M_IN_KM, if_neg hd, bind, Except.bind, pure, Except.pure]
  · simp only [Training.show_training_info, Training.get_mean_speed,
      Training.get_spent_calories, Training.get_distance, Training.action,
      Training.LEN_STEP, Training.duration, Training.weight, Training.M_IN_KM,
      Training.typeName, bind, Except.bind, pure, Except.pure]
    norm_num

/-- C3 witness: the Swimming speed and calorie formulas instantiated at the
sample record. -/
theorem swimming_speed_calories_formula_witness :
    Training.get_mean_speed (.swimming 720 1 80 25 40) =
      .ok ((25 : ℚ) * 40 / 1000 / 1) ∧
    Training.get_spent_calories (.swimming 720 1 80 25 40) =
      .ok (((25 : ℚ) * 40 / 1000 / 1 + 1.1) * 2 * 80) :=
  swimming_speed_calories_formula.1 720 1 80 25 40 (by norm_num)

/-- C4: the dispatcher fails with a `KeyError` carrying the offending code
exactly when the code is not one of `"SWM"`, `"RUN"`, `"WLK"`, and that
error never carries any other code. -/
theorem read_package_unknown_iff (code : String) (data : List ℚ) :
    (read_package code data = .error (.unknownWorkout code) ↔
      ¬(code = "SWM" ∨ code = "RUN" ∨ code = "WLK")) ∧
    (∀ c, read_package code data = .error (.unknownWorkout c) → c = code) := by
  unfold read_package
  by_cases h1 : code = "SWM"
  · subst h1
    rcases data with _ | ⟨x1, _ | ⟨x2, _ | ⟨x3, _ | ⟨x4, _ | ⟨x5, _ | ⟨x6, r⟩⟩⟩⟩⟩⟩ <;>
      simp
  · by_cases h2 : code = "RUN"
    · subst h2
      rcases data with _ | ⟨x1, _ | ⟨x2, _ | ⟨x3, _ | ⟨x4, r⟩⟩⟩⟩ <;> simp
    · by_cases h3 : code = "WLK"
      · subst h3
        rcases data with _ | ⟨x1, _ | ⟨x2, _ | ⟨x3, _ | ⟨x4, _ | ⟨x5, r⟩⟩⟩⟩⟩ <;>
          simp
      · simp [h1, h2, h3]

/-- C4 witness: `read_package "XYZ" [1, 2, 3]` fails with the `KeyError`
carrying `"XYZ"`. -/
theorem read_package_unknown_iff_witness :
    read_package "XYZ" [1, 2, 3] = .error (.unknownWorkout "XYZ") :=
  (read_package_unknown_iff "XYZ" [1, 2, 3]).1.mpr (by decide)

/-- C5 (counterexample): a SportsWalking record with `duration = 0` and
`height = 1 ≠ 0` still fails with a division fault, so the calorie fault is
not characterized by `height == 0` alone. -/
theorem sportsWalking_div_fault_nonzero_height :
    Training.get_spent_calories (.sportsWalking 1 0 1 1) =
      .error .divisionByZero ∧ (1 : ℚ) ≠ 0 := by
  refine ⟨?_, by norm_num⟩
  simp only [Training.get_spent_calories, Training.get_mean_speed,
    Training.duration, bind, Except.bind]
  norm_num

/-- C5 (amended): `get_mean_speed` fails with a division fault exactly when
the duration is zero (and otherwise returns a value), and a SportsWalking
record's calorie computation fails with a division fault exactly when the
duration is zero or the height is zero; neither division is guarded. -/
theorem division_fault_characterization :
    (∀ t : Training,
      Training.get_mean_speed t = .error .divisionByZero ↔ t.duration = 0) ∧
    (∀ t : Training, t.duration ≠ 0 →
      ∃ v, Training.get_mean_speed t = .ok v) ∧
    (∀ a d w h, Training.get_spent_calories (.sportsWalking a d w h) =
      .error Fault.divisionByZero ↔ (d = 0 ∨ h = 0)) := by
  refine ⟨?_, ?_, ?_⟩
  · intro t
    cases t <;> simp [Training.get_mean_speed, Training.duration]
  · intro t ht
    cases t <;> simp_all [Training.get_mean_speed, Training.duration]
  · intro a d w h
    by_cases hd : d = 0
    · simp [Training.get_spent_calories, Training.get_mean_speed,
        Training.duration, hd, bind, Except.bind]
    · by_cases hh : h = 0 <;>
        simp [Training.get_spent_calories, Training.get_mean_speed,
          Training.duration, hd, hh, bind, Except.bind, pure, Except.pure]

/-- C5 witness: the sample Running record has nonzero duration, so its mean
speed is defined. -/
theorem division_fault_characterization_witness :
    ∃ v, Training.get_mean_speed (.running 15000 1 75) = .ok v :=
  division_fault_characterization.2.1 (.running 15000 1 75)
    (by simp [Training.duration])

/-- C6: `get_message` renders exactly the fixed template
`Тип тренировки: ...; Длительность: ... ч.; Дистанция: ... км; Ср.
скорость: ... км/ч; Потрачено ккал: ... .` with the four numeric fields
formatted by `formatFixed3`, whose output always ends in a decimal point
followed by exactly three digits regardless of magnitude; in particular
`9.75` renders as `"9.750"`. -/
theorem get_message_format :
    (∀ m : InfoMessage, m.get_message =
      "Тип тренировки: " ++ m.training_type
        ++ "; Длительность: " ++ formatFixed3 m.duration
        ++ " ч.; Дистанция: " ++ formatFixed3 m.distance
        ++ " км; Ср. скорость: " ++ formatFixed3 m.speed
        ++ " км/ч; Потрачено ккал: " ++ formatFixed3 m.calories ++ ".") ∧
    (∀ q : ℚ, ∃ l d1 d2 d3, (formatFixed3 q).data = l ++ ['.', d1, d2, d3] ∧
      d1.isDigit = true ∧ d2.isDigit = true ∧ d3.isDigit = true) ∧
    formatFixed3 9.75 = "9.750" := by
  refine ⟨fun m => rfl, formatFixed3_shape, ?_⟩
  simp only [formatFixed3, roundHalfEven, fracDigits3, digitChar]
  norm_num
  decide

/-- C7: calling `get_spent_calories` on an instance of the base class fails
with `NotImplementedError`, and no record obtained through the dispatcher
can produce that fault — every dispatched variant overrides the method. -/
theorem base_calories_fault_and_unreachable :
    (∀ a d w, Training.get_spent_calories (.base a d w) =
      .error .notImplemented) ∧
    (∀ code data t, read_package code data = .ok t →
      Training.get_spent_calories t ≠ .error .notImplemented) := by
  refine ⟨fun a d w => rfl, ?_⟩
  intro code data t hread
  cases t with
  | base a d w => exact absurd hread (read_package_ne_base code data a d w)
  | running a d w =>
      by_cases hd : d = 0 <;>
        simp [Training.get_spent_calories, Training.get_mean_speed,
          Training.duration, hd, bind, Except.bind, pure, Except.pure]
  | sportsWalking a d w h =>
      by_cases hd : d = 0
      · simp [Training.get_spent_calories, Training.get_mean_speed,
          Training.duration, hd, bind, Except.bind]
      · by_cases hh : h = 0 <;>
          simp [Training.get_spent_calories, Training.get_mean_speed,
            Training.duration, hd, hh, bind, Except.bind, pure, Except.pure]
  | swimming a d w lp cp =>
      by_cases hd : d = 0 <;>
        simp [Training.get_spent_calories, Training.get_mean_speed,
          Training.duration, hd, bind, Except.bind, pure, Except.pure]

/-- C7 witness: the record dispatched for `("RUN", [1, 2, 3])` never raises
`NotImplementedError` from its calorie computation. -/
theorem base_calories_fault_and_unreachable_witness :
    Training.get_spent_calories (.running 1 2 3) ≠ .error .notImplemented :=
  base_calories_fault_and_unreachable.2 "RUN" [1, 2, 3] (.running 1 2 3) rfl

/-- C8: for each of the three variants, the distance is the action count
times the per-action length (`0.65` for Running and SportsWalking, `1.38`
for Swimming) divided by `1000`, hence non-negative whenever the action
count is non-negative. -/
theorem get_distance_nonneg :
    (∀ a d w, 0 ≤ a → 0 ≤ Training.get_distance (.running a d w)) ∧
    (∀ a d w h, 0 ≤ a → 0 ≤ Training.get_distance (.sportsWalking a d w h)) ∧
    (∀ a d w lp cp, 0 ≤ a → 0 ≤ Training.get_distance (.swimming a d w lp cp)) ∧
    (∀ a d w, Training.get_distance (.running a d w) = a * 0.65 / 1000) ∧
    (∀ a d w h, Training.get_distance (.sportsWalking a d w h) = a * 0.65 / 1000) ∧
    (∀ a d w lp cp, Training.get_distance (.swimming a d w lp cp) = a * 1.38 / 1000) := by
  refine ⟨?_, ?_, ?_, fun a d w => rfl, fun a d w h => rfl,
    fun a d w lp cp => rfl⟩
  · intro a d w ha
    exact div_nonneg (mul_nonneg ha (by norm_num [Training.LEN_STEP]))
      (by norm_num [Training.M_IN_KM])
  · intro a d w h ha
    exact div_nonneg (mul_nonneg ha (by norm_num [Training.LEN_STEP]))
      (by norm_num [Training.M_IN_KM])
  · intro a d w lp cp ha
    exact div_nonneg (mul_nonneg ha (by norm_num [Training.LEN_STEP]))
      (by norm_num [Training.M_IN_KM])

/-- C8 witness: the distance of the sample Running record is non-negative. -/
theorem get_distance_nonneg_witness :
    0 ≤ Training.get_distance (.running 15000 1 75) :=
  get_distance_nonneg.1 15000 1 75 (by norm_num)

/-- C9: for each recognized code, the dispatcher fails with an arity error
exactly when the payload length differs from the variant's positional
argument count: 3 for `"RUN"`, 4 for `"WLK"`, 5 for `"SWM"`. -/
theorem read_package_arity_check (data : List ℚ) :
    (read_package "RUN" data = .error .arityMismatch ↔ data.length ≠ 3) ∧
    (read_package "WLK" data = .error .arityMismatch ↔ data.length ≠ 4) ∧
    (read_package "SWM" data = .error .arityMismatch ↔ data.length ≠ 5) := by
  refine ⟨?_, ?_, ?_⟩ <;>
    rcases data with _ | ⟨x1, _ | ⟨x2, _ | ⟨x3, _ | ⟨x4, _ | ⟨x5, _ | ⟨x6, r⟩⟩⟩⟩⟩⟩ <;>
      simp [read_package]

/-- C9 witness: dispatching `"RUN"` with an empty payload fails with the
arity error. -/
theorem read_package_arity_check_witness :
    read_package "RUN" ([] : List ℚ) = .error .arityMismatch :=
  (read_package_arity_check []).1.mpr (by decide)

/-- C10: a Swimming summary's distance is the inherited stroke-based
`action * 1.38 / 1000`, independent of the pool fields, while its speed
comes from the pool geometry — so the reported distance is in general not
`speed * duration`, as the sample record `(720, 1, 80, 25, 40)` shows. -/
theorem swimming_distance_independent :
    (∀ a d w lp cp, d ≠ 0 → ∃ msg,
      Training.show_training_info (.swimming a d w lp cp) = .ok msg ∧
      msg.distance = a * 1.38 / 1000 ∧ msg.speed = lp * cp / 1000 / d ∧
      msg.duration = d) ∧
    (∃ msg, Training.show_training_info (.swimming 720 1 80 25 40) = .ok msg ∧
      msg.distance ≠ msg.speed * msg.duration) := by
  constructor
  · intro a d w lp cp hd
    refine ⟨⟨"Swimming", d, a * 1.38 / 1000, lp * cp / 1000 / d,
      (lp * cp / 1000 / d + 1.1) * 2 * w⟩, ?_, rfl, rfl, rfl⟩
    simp only [Training.show_training_info, Training.get_mean_speed,
      Training.get_spent_calories, Training.get_distance, Training.action,
      Training.LEN_STEP, Training.duration, Training.weight, Training.M_IN_KM,
      Training.typeName, bind, Except.bind, pure, Except.pure, if_neg hd]
  · refine ⟨⟨"Swimming", 1, 0.9936, 1, 336⟩, ?_, by norm_num⟩
    simp only [Training.show_training_info, Training.get_mean_speed,
      Training.get_spent_calories, Training.get_distance, Training.action,
      Training.LEN_STEP, Training.duration, Training.weight, Training.M_IN_KM,
      Training.typeName, bind, Except.bind, pure, Except.pure]
    norm_num

/-- C10 witness: the distance/speed decomposition of the sample Swimming
summary. -/
theorem swimming_distance_independent_witness :
    ∃ msg, Training.show_training_info (.swimming 720 1 80 25 40) = .ok msg ∧
      msg.distance = 720 * 1.38 / 1000 ∧ msg.speed = 25 * 40 / 1000 / 1 ∧
      msg.duration = 1 :=
  swimming_distance_independent.1 720 1 80 25 40 (by norm_num)
